import Mathlib

/-!
Verification of the `frc::CameraServer` facade declared in
`src/wpilibc/athena/include/CameraServer.h`.

The repository provides only the class declaration (fields and method
signatures); the method bodies live elsewhere.  The data model below embeds
the declared fields (`m_primarySourceName`, `m_sources`, `m_sinks`,
`m_nextPort`) directly; the operations are modelled from the specification's
description of each method (spec sections 3, 4.1 and 6).  String-keyed
`llvm::StringMap` registries are embedded as association lists with
overwrite-on-insert semantics.
-/

namespace CameraServerSpec

/-- Association-list lookup, embedding `llvm::StringMap::find`. -/
def mapGet (k : String) : List (String × Nat) → Option Nat
  | [] => none
  | (k', v') :: rest => if k' = k then some v' else mapGet k rest

/-- Association-list insert-or-overwrite, embedding `llvm::StringMap`
assignment `m[name] = value`: the first binding of the key is replaced,
and a missing key is appended. -/
def mapSet (k : String) (v : Nat) : List (String × Nat) → List (String × Nat)
  | [] => [(k, v)]
  | (k', v') :: rest => if k' = k then (k, v) :: rest else (k', v') :: mapSet k v rest

/-- Association-list erase, embedding `llvm::StringMap::erase`: every
binding of the key is removed. -/
def mapErase (k : String) : List (String × Nat) → List (String × Nat)
  | [] => []
  | (k', v') :: rest => if k' = k then mapErase k rest else (k', v') :: mapErase k rest

/-- Constant `CameraServer::kBasePort` from `CameraServer.h` line 27
(a `uint16_t`, embedded as `Nat`; 1181 is far below 2^16). -/
def kBasePort : Nat := 1181

/-- Constant `CameraServer::kSize640x480` from `CameraServer.h` line 28. -/
def kSize640x480 : Int := 0

/-- Constant `CameraServer::kSize320x240` from `CameraServer.h` line 29. -/
def kSize320x240 : Int := 1

/-- Constant `CameraServer::kSize160x120` from `CameraServer.h` line 30. -/
def kSize160x120 : Int := 2

/-- Constant `CameraServer::kPublishName` from `CameraServer.h` line 166. -/
def kPublishName : String := "/CameraPublisher"

/-- A `cs::VideoSource` handle as seen by the facade: a name plus an opaque
numeric handle (`CS_Source`). -/
structure VideoSource where
  name : String
  handle : Nat
deriving DecidableEq, Repr

/-- A `cs::CvSink` as returned by `GetVideo`: a sink bound to the named
source. -/
structure CvSink where
  boundSourceName : String
deriving DecidableEq, Repr

/-- The registry state of the `CameraServer` singleton: the fields
`m_primarySourceName`, `m_sources`, `m_sinks` and `m_nextPort` declared at
`CameraServer.h` lines 169-176.  Sink values record the server's port. -/
structure CameraServerState where
  primarySourceName : Option String
  sources : List (String × Nat)
  sinks : List (String × Nat)
  nextPort : Nat
deriving DecidableEq, Repr

/-- Modelled from the spec: registries start empty and the singleton is
lazily created; port allocation is sequential "starting from this base"
(spec section 6), so `m_nextPort` starts at `kBasePort`. -/
def initialState : CameraServerState :=
  { primarySourceName := none, sources := [], sinks := [], nextPort := kBasePort }

/-- Modelled from the spec: `StartAutomaticCapture` "publishes it as primary
if none is set" (spec section 4.1) — the primary source name is set only when
currently unset. -/
def setPrimaryIfUnset (name : String) : Option String → Option String
  | none => some name
  | some p => some p

/-- Modelled from the spec: the body of
`CameraServer::StartAutomaticCapture(llvm::StringRef name, int dev)` is not
in the repository snippet.  Per spec section 4.1 it "creates or looks up a
camera source, registers it by name ..., publishes it as primary if none is
set, and returns a handle".  The created source's handle is determined by the
device number. -/
def startAutomaticCaptureNamed (name : String) (dev : Nat)
    (s : CameraServerState) : CameraServerState × VideoSource :=
  let cam : VideoSource := { name := name, handle := dev }
  ({ s with
      sources := mapSet name dev s.sources
      primarySourceName := setPrimaryIfUnset name s.primarySourceName },
   cam)

/-- Modelled from the spec: the default camera name generated by the no-device
overloads ("defaulting a generated name if unspecified", spec section 4.1). -/
def defaultCameraName (dev : Nat) : String := "USB Camera " ++ toString dev

/-- Modelled from the spec: the body of `CameraServer::StartAutomaticCapture()`
is not in the repository snippet.  Per the header comment at
`CameraServer.h` line 44 it calls the device-number overload with device 0. -/
def startAutomaticCapture (s : CameraServerState) : CameraServerState × VideoSource :=
  startAutomaticCaptureNamed (defaultCameraName 0) 0 s

/-- Modelled from the spec: the body of `CameraServer::GetVideo()` is not in
the repository snippet.  Per spec section 4.1 it "returns a sink bound to the
given source for local frame consumption; fails if no source has been
registered when no explicit source is given" — failure is embedded as
`none`. -/
def getVideo (s : CameraServerState) : Option CvSink :=
  match s.primarySourceName with
  | none => none
  | some name =>
    match mapGet name s.sources with
    | none => none
    | some _ => some { boundSourceName := name }

/-- Modelled from the spec: the body of
`CameraServer::AddServer(llvm::StringRef name, int port)` is not in the
repository snippet.  Per spec section 4.1 it creates an MJPEG streaming
server on the given port and registers it by name; the explicit-port overload
does not touch the port counter. -/
def addServerPort (name : String) (port : Nat) (s : CameraServerState) :
    CameraServerState :=
  { s with sinks := mapSet name port s.sinks }

/-- Modelled from the spec: the body of
`CameraServer::AddServer(llvm::StringRef name)` is not in the repository
snippet.  Per spec sections 3 and 4.1 it auto-assigns "the next free port"
from "a monotonically increasing port counter" (`m_nextPort`).  The assigned
port is returned alongside the new state. -/
def addServer (name : String) (s : CameraServerState) : CameraServerState × Nat :=
  let port := s.nextPort
  ({ addServerPort name port s with nextPort := s.nextPort + 1 }, port)

/-- Modelled from the spec: the body of `CameraServer::RemoveServer` is not in
the repository snippet.  Per spec section 4.1 it removes the named MJPEG
server from the sink registry. -/
def removeServer (name : String) (s : CameraServerState) : CameraServerState :=
  { s with sinks := mapErase name s.sinks }

/-- Modelled from the spec: the body of `CameraServer::AddCamera` is not in
the repository snippet.  Per spec section 4.1 it "registers ... an existing
source by name without affecting servers". -/
def addCamera (camera : VideoSource) (s : CameraServerState) : CameraServerState :=
  { s with sources := mapSet camera.name camera.handle s.sources }

/-- Modelled from the spec: the body of `CameraServer::RemoveCamera` is not in
the repository snippet.  Per spec sections 4.1 and 7 it unregisters the named
source; an unknown name fails silently (errors are recorded on the shared
`ErrorBase` status, never raised fatally), so the operation is total. -/
def removeCamera (name : String) (s : CameraServerState) : CameraServerState :=
  { s with sources := mapErase name s.sources }

/-- Modelled from the spec: the body of `CameraServer::SetSize` is not in the
repository snippet.  Per spec section 6 the three size presets map to the
fixed resolution pairs 640x480, 320x240 and 160x120; any other argument
selects no preset.  The API is deprecated per the header comment at
`CameraServer.h` line 154. -/
def setSizeResolution (size : Int) : Option (Nat × Nat) :=
  if size = kSize640x480 then some (640, 480)
  else if size = kSize320x240 then some (320, 240)
  else if size = kSize160x120 then some (160, 120)
  else none

/-- Modelled from the spec: the body of `CameraServer::GetSourceTable` is not
in the repository snippet.  Per spec section 6 per-source metadata subtables
are published "under a fixed root path `/CameraPublisher`": the table for a
source lives at the root path extended by the source name. -/
def getSourceTablePath (sourceName : String) : String :=
  kPublishName ++ ("/" ++ sourceName)

/-- The process-wide singleton cell behind `CameraServer::GetInstance`: either
no instance has been created yet, or it holds the (numeric stand-in for the)
unique instance pointer. -/
structure SingletonState where
  created : Option Nat
deriving DecidableEq, Repr

/-- Modelled from the spec: the body of `CameraServer::GetInstance` is not in
the repository snippet.  Per spec section 3 "the singleton itself is
process-lifetime with lazy initialization on first access": the first call
creates the instance, every later call returns the stored one. -/
def getInstance (s : SingletonState) : SingletonState × Nat :=
  match s.created with
  | some i => (s, i)
  | none => ({ created := some 0 }, 0)

/-! ## Helper lemmas on the registry maps -/

theorem mapSet_idem (k : String) (v : Nat) (l : List (String × Nat)) :
    mapSet k v (mapSet k v l) = mapSet k v l := by
  induction l with
  | nil => simp [mapSet]
  | cons hd tl ih =>
    obtain ⟨k', v'⟩ := hd
    by_cases h : k' = k
    · simp [mapSet, h]
    · simp [mapSet, h, ih]

theorem mapErase_idem (k : String) (l : List (String × Nat)) :
    mapErase k (mapErase k l) = mapErase k l := by
  induction l with
  | nil => simp [mapErase]
  | cons hd tl ih =>
    obtain ⟨k', v'⟩ := hd
    by_cases h : k' = k
    · simp [mapErase, h, ih]
    · simp [mapErase, h, ih]

theorem mapErase_absent (k : String) (l : List (String × Nat))
    (h : mapGet k l = none) : mapErase k l = l := by
  induction l with
  | nil => simp [mapErase]
  | cons hd tl ih =>
    obtain ⟨k', v'⟩ := hd
    by_cases hk : k' = k
    · simp [mapGet, hk] at h
    · simp [mapGet, hk] at h
      simp [mapErase, hk, ih h]

theorem setPrimaryIfUnset_idem (name : String) (p : Option String) :
    setPrimaryIfUnset name (setPrimaryIfUnset name p) = setPrimaryIfUnset name p := by
  cases p <;> simp [setPrimaryIfUnset]

/-! ## Claim theorems -/

/-- C1: immediately after `StartAutomaticCapture()` on a state with no
registered sources (and hence no primary source name), the newly created
camera becomes the primary source, and `GetVideo()` with no arguments
returns a sink bound to that source. -/
theorem startAutomaticCapture_primary_getVideo (s : CameraServerState)
    (hsrc : s.sources = []) (hpri : s.primarySourceName = none) :
    (startAutomaticCapture s).1.primarySourceName = some (defaultCameraName 0) ∧
    getVideo (startAutomaticCapture s).1 =
      some { boundSourceName := defaultCameraName 0 } := by
  constructor
  · simp [startAutomaticCapture, startAutomaticCaptureNamed, hpri, setPrimaryIfUnset]
  · simp [startAutomaticCapture, startAutomaticCaptureNamed, hpri, hsrc,
      setPrimaryIfUnset, getVideo, mapSet, mapGet]

theorem startAutomaticCapture_primary_getVideo_witness :
    initialState.sources = [] ∧ initialState.primarySourceName = none ∧
    ((startAutomaticCapture initialState).1.primarySourceName =
        some (defaultCameraName 0) ∧
      getVideo (startAutomaticCapture initialState).1 =
        some { boundSourceName := defaultCameraName 0 }) :=
  ⟨rfl, rfl, startAutomaticCapture_primary_getVideo initialState rfl rfl⟩

/-- C2: in every state where no source has been registered (empty source
registry, no primary source name), `GetVideo()` with no arguments fails,
returning no valid sink. -/
theorem getVideo_fails_without_sources (s : CameraServerState)
    (hsrc : s.sources = []) (hpri : s.primarySourceName = none) :
    getVideo s = none := by
  simp [getVideo, hpri]

theorem getVideo_fails_without_sources_witness :
    initialState.sources = [] ∧ initialState.primarySourceName = none ∧
    getVideo initialState = none :=
  ⟨rfl, rfl, getVideo_fails_without_sources initialState rfl rfl⟩

/-- C3: from every state, calling `AddServer(name1)` and then
`AddServer(name2)` with no port argument assigns two distinct ports, the
second strictly greater than the first, since ports come from the
monotonically increasing counter `m_nextPort`. -/
theorem addServer_ports_increasing (s : CameraServerState) (name1 name2 : String) :
    (addServer name1 s).2 ≠ (addServer name2 (addServer name1 s).1).2 ∧
    (addServer name1 s).2 < (addServer name2 (addServer name1 s).1).2 := by
  refine ⟨?_, ?_⟩ <;> simp [addServer, addServerPort]

/-- C4 counterexample: `AddServer` with no port argument is not idempotent —
on the initial state, calling `AddServer("a")` twice leaves a different state
than calling it once (the port counter reads 1183 rather than 1182, and the
registered server holds port 1182 rather than 1181). -/
theorem addServer_not_idempotent :
    (addServer "a" (addServer "a" initialState).1).1 ≠
      (addServer "a" initialState).1 := by
  decide

/-- C4 amended: every public mutating operation of `CameraServer` other than
the port-allocating `AddServer(name)` overload — that is,
`StartAutomaticCapture`, `AddServer` with an explicit port, `AddCamera`,
`RemoveServer` and `RemoveCamera` — is an idempotent registry mutation:
applying it twice with the same arguments leaves the registries exactly as
applying it once.  `AddServer` without a port advances the monotonically
increasing port counter on every call and thus is not idempotent. -/
theorem mutations_idempotent (s : CameraServerState) (name : String)
    (dev port : Nat) (camera : VideoSource) :
    (startAutomaticCaptureNamed name dev
        (startAutomaticCaptureNamed name dev s).1).1 =
      (startAutomaticCaptureNamed name dev s).1 ∧
    addServerPort name port (addServerPort name port s) =
      addServerPort name port s ∧
    addCamera camera (addCamera camera s) = addCamera camera s ∧
    removeServer name (removeServer name s) = removeServer name s ∧
    removeCamera name (removeCamera name s) = removeCamera name s := by
  refine ⟨?_, ?_, ?_, ?_, ?_⟩
  · simp [startAutomaticCaptureNamed, mapSet_idem, setPrimaryIfUnset_idem]
  · simp [addServerPort, mapSet_idem]
  · simp [addCamera, mapSet_idem]
  · simp [removeServer, mapErase_idem]
  · simp [removeCamera, mapErase_idem]

/-- C5: the default base port for MJPEG streaming servers, the constant
`kBasePort` at `CameraServer.h` line 27, equals 1181; the port counter starts
there, and every port-allocating `AddServer` call hands out the current
counter value and advances it by one, so servers created without an explicit
port get sequentially increasing ports from the base. -/
theorem kBasePort_sequential_allocation :
    kBasePort = 1181 ∧ initialState.nextPort = kBasePort ∧
    ∀ (s : CameraServerState) (name : String),
      (addServer name s).2 = s.nextPort ∧
      (addServer name s).1.nextPort = s.nextPort + 1 := by
  refine ⟨rfl, rfl, fun s name => ⟨rfl, rfl⟩⟩

/-- C6: the constant `kPublishName` at `CameraServer.h` line 166 equals the
string "/CameraPublisher", and every per-source metadata table path resolved
by `GetSourceTable` extends that fixed root. -/
theorem kPublishName_root :
    kPublishName = "/CameraPublisher" ∧
    ∀ sourceName : String, ∃ rest : String,
      getSourceTablePath sourceName = kPublishName ++ rest :=
  ⟨rfl, fun sourceName => ⟨"/" ++ sourceName, rfl⟩⟩

/-- C7: there are exactly three size-preset constants
(`CameraServer.h` lines 28-30), pairwise distinct, and when passed to
`SetSize` they select the fixed resolutions 640x480, 320x240 and 160x120
respectively; any other value selects no preset.  (The header marks
`SetSize` deprecated in favor of per-camera resolution configuration.) -/
theorem size_presets :
    kSize640x480 = 0 ∧ kSize320x240 = 1 ∧ kSize160x120 = 2 ∧
    kSize640x480 ≠ kSize320x240 ∧ kSize320x240 ≠ kSize160x120 ∧
    kSize640x480 ≠ kSize160x120 ∧
    setSizeResolution kSize640x480 = some (640, 480) ∧
    setSizeResolution kSize320x240 = some (320, 240) ∧
    setSizeResolution kSize160x120 = some (160, 120) := by
  decide

/-- C8: for every state and every name absent from the source registry,
`RemoveCamera(name)` is a no-op: the state is unchanged, and the operation
is total (no fatal error; per the spec, errors only get recorded on the
shared `ErrorBase` status). -/
theorem removeCamera_unknown_noop (s : CameraServerState) (name : String)
    (h : mapGet name s.sources = none) :
    removeCamera name s = s := by
  simp [removeCamera, mapErase_absent name s.sources h]

theorem removeCamera_unknown_noop_witness :
    mapGet "never added" initialState.sources = none ∧
    removeCamera "never added" initialState = initialState :=
  ⟨rfl, removeCamera_unknown_noop initialState "never added" rfl⟩

/-- C10: `GetInstance` yields the process-lifetime singleton: from every
state of the singleton cell, a repeated call returns the very same instance
as the previous call and leaves the cell unchanged, so all callers share one
instance (always present, never null, since the first call creates it). -/
theorem getInstance_singleton (s : SingletonState) :
    (getInstance (getInstance s).1).2 = (getInstance s).2 ∧
    (getInstance (getInstance s).1).1 = (getInstance s).1 := by
  cases h : s.created <;> simp [getInstance, h]

end CameraServerSpec
